import Mathlib

/-!
Verification of the viewport-sizing logic of the camera screen in
`src/app/index.tsx`.

The file contains two variants of the same screen component.  Both define a
table `VIDEO_MODES` of per-mode ratio configurations and compute the size of
the camera preview surface from the selected capture mode, a landscape flag
and the ambient screen extents.  The first variant computes it in a
`getAspectRatio` callback (lines 92-152), the second in an `aspectRatio`
memo (lines 696-748).  Screen dimensions and the computed sizes are modelled
as rational numbers; the JavaScript source computes with IEEE doubles, so the
algebraic structure of the computation is captured exactly while rounding is
abstracted away.

Both variants also define a `stopRecording` callback guarded by the
recording flag; it is modelled as an explicit state transition emitting a
list of commands to the camera collaborator.
-/

/-- Capture modes, from the `VideoMode` union type of the source. -/
inductive VideoMode : Type
  | vertical
  | horizontal
  | square
deriving DecidableEq, Repr

/-- Per-mode ratio configuration, from the `VideoModeConfig` interface. -/
structure VideoModeConfig : Type where
  name : String
  portraitRatio : ℚ
  landscapeRatio : ℚ
deriving DecidableEq, Repr

/-- The `{width, height}` result, from the `AspectRatio` interface. -/
structure AspectRatio : Type where
  width : ℚ
  height : ℚ
deriving DecidableEq, Repr

/-- The static `VIDEO_MODES` table (identical in both source variants). -/
def VIDEO_MODES : VideoMode → VideoModeConfig
  | VideoMode.vertical => { name := "Vertical", portraitRatio := 16 / 9, landscapeRatio := 9 / 16 }
  | VideoMode.horizontal => { name := "Horizontal", portraitRatio := 9 / 16, landscapeRatio := 16 / 9 }
  | VideoMode.square => { name := "Square", portraitRatio := 1, landscapeRatio := 1 }

/-- The `getAspectRatio` callback of the first screen variant
(src/app/index.tsx lines 92-152), with the screen extents it reads from
`Dimensions.get("window")` made explicit arguments. -/
def getAspectRatio (selectedMode : VideoMode) (isLandscape : Bool)
    (screenWidth screenHeight : ℚ) : AspectRatio :=
  let modeConfig := VIDEO_MODES selectedMode
  if isLandscape then
    match selectedMode with
    | VideoMode.vertical =>
        { width := screenHeight * modeConfig.landscapeRatio, height := screenHeight }
    | VideoMode.horizontal =>
        let widthConstrainedHeight := screenWidth / modeConfig.landscapeRatio
        let heightConstrainedWidth := screenHeight * modeConfig.landscapeRatio
        if widthConstrainedHeight > screenHeight then
          { width := heightConstrainedWidth, height := screenHeight }
        else
          { width := screenWidth, height := widthConstrainedHeight }
    | VideoMode.square =>
        { width := screenHeight, height := screenHeight }
  else
    match selectedMode with
    | VideoMode.vertical =>
        { width := screenWidth, height := screenWidth * modeConfig.portraitRatio }
    | VideoMode.horizontal =>
        { width := screenWidth, height := screenWidth * modeConfig.portraitRatio }
    | VideoMode.square =>
        { width := screenWidth, height := screenWidth }

/-- The `aspectRatio` memo of the second screen variant
(src/app/index.tsx lines 696-748).  It differs from `getAspectRatio` only in
the square branches, which use `Math.min(screenWidth, screenHeight)`. -/
def aspectRatioMemo (selectedMode : VideoMode) (isLandscape : Bool)
    (screenWidth screenHeight : ℚ) : AspectRatio :=
  let modeConfig := VIDEO_MODES selectedMode
  if isLandscape then
    match selectedMode with
    | VideoMode.vertical =>
        { width := screenHeight * modeConfig.landscapeRatio, height := screenHeight }
    | VideoMode.horizontal =>
        let widthConstrainedHeight := screenWidth / modeConfig.landscapeRatio
        let heightConstrainedWidth := screenHeight * modeConfig.landscapeRatio
        if widthConstrainedHeight > screenHeight then
          { width := heightConstrainedWidth, height := screenHeight }
        else
          { width := screenWidth, height := widthConstrainedHeight }
    | VideoMode.square =>
        let size := min screenWidth screenHeight
        { width := size, height := size }
  else
    match selectedMode with
    | VideoMode.vertical =>
        { width := screenWidth, height := screenWidth * modeConfig.portraitRatio }
    | VideoMode.horizontal =>
        { width := screenWidth, height := screenWidth * modeConfig.portraitRatio }
    | VideoMode.square =>
        let size := min screenWidth screenHeight
        { width := size, height := size }

/-- The window extents read from `Dimensions.get("window")`. -/
structure ScreenDims : Type where
  width : ℚ
  height : ℚ
deriving DecidableEq, Repr

/-- The component-local state of the camera screen that is in scope when the
viewport computation runs: the recording flag, the selected mode, the
orientation flag derived from `deviceOrientation`, the error message of the
first variant, the `cameraKey` counter of the second variant, and the
current window extents. -/
structure ComponentState : Type where
  isRecording : Bool
  selectedMode : VideoMode
  isLandscape : Bool
  errorMsg : Option String
  cameraKey : Nat
  window : ScreenDims
deriving DecidableEq, Repr

/-- The viewport computation as it runs inside the component: it reads only
`selectedMode`, `isLandscape` and the window extents from the state. -/
def getAspectRatioOf (s : ComponentState) : AspectRatio :=
  getAspectRatio s.selectedMode s.isLandscape s.window.width s.window.height

/-- Commands the screen issues to its camera / UI collaborators. -/
inductive CameraCommand : Type
  | stopCamera
deriving DecidableEq, Repr

/-- The recording-related state touched by `stopRecording`. -/
structure RecState : Type where
  isRecording : Bool
  errorMsg : Option String
deriving DecidableEq, Repr

/-- The `stopRecording` callback (src/app/index.tsx lines 269-280 and
855-866): it returns immediately when no camera ref is mounted or the
recording flag is clear; otherwise it issues `stopRecording` to the camera
and, on success, clears the flag, while on failure it records the error and
leaves the flag set. -/
def stopRecording (cameraPresent : Bool) (stopSucceeds : Bool) (errText : String)
    (s : RecState) : RecState × List CameraCommand :=
  if !cameraPresent || !s.isRecording then
    (s, [])
  else if stopSucceeds then
    ({ s with isRecording := false }, [CameraCommand.stopCamera])
  else
    ({ s with errorMsg := some ("Failed to stop recording: " ++ errText) },
      [CameraCommand.stopCamera])

/-- Unfolding lemma for the Horizontal-landscape branch shared by the
proofs below: this branch is the only one with an internal conditional. -/
theorem getAspectRatio_horizontal_true (screenWidth screenHeight : ℚ) :
    getAspectRatio VideoMode.horizontal true screenWidth screenHeight =
      if screenWidth / (16 / 9) > screenHeight then
        { width := screenHeight * (16 / 9), height := screenHeight }
      else
        { width := screenWidth, height := screenWidth / (16 / 9) } := rfl

/-- Claim C1, counterexample: in the first variant the landscape Square
branch returns `screenHeight` for both components, so on a screen with
`width = 400 < height = 800` the result is not `min` of the extents. -/
theorem square_min_counterexample :
    getAspectRatio VideoMode.square true 400 800 ≠
      { width := min (400 : ℚ) 800, height := min (400 : ℚ) 800 } := by
  norm_num [getAspectRatio, VIDEO_MODES]

/-- Claim C1, amended: the `aspectRatio` memo of the second variant returns
`width = height = min(screenWidth, screenHeight)` in Square mode for both
orientation flags; the `getAspectRatio` callback of the first variant
returns `screenHeight` in landscape and `screenWidth` in portrait, which
equals `min` exactly when the flag-selected extent is the smaller one
(landscape: `screenHeight ≤ screenWidth`; portrait: the reverse). -/
theorem square_min_amended :
    (∀ (isLandscape : Bool) (screenWidth screenHeight : ℚ),
      aspectRatioMemo VideoMode.square isLandscape screenWidth screenHeight =
        { width := min screenWidth screenHeight,
          height := min screenWidth screenHeight }) ∧
    (∀ screenWidth screenHeight : ℚ, screenHeight ≤ screenWidth →
      getAspectRatio VideoMode.square true screenWidth screenHeight =
        { width := min screenWidth screenHeight,
          height := min screenWidth screenHeight }) ∧
    (∀ screenWidth screenHeight : ℚ, screenWidth ≤ screenHeight →
      getAspectRatio VideoMode.square false screenWidth screenHeight =
        { width := min screenWidth screenHeight,
          height := min screenWidth screenHeight }) := by
  refine ⟨fun l w h => ?_, fun w h hle => ?_, fun w h hle => ?_⟩
  · cases l <;> rfl
  · simp [getAspectRatio, VIDEO_MODES, min_eq_right hle]
  · simp [getAspectRatio, VIDEO_MODES, min_eq_left hle]

/-- Claim C1, witness for the amended statement at concrete inputs. -/
theorem square_min_amended_witness :
    (800 : ℚ) ≤ 1280 ∧
    getAspectRatio VideoMode.square true 1280 800 =
      { width := min (1280 : ℚ) 800, height := min (1280 : ℚ) 800 } :=
  ⟨by norm_num, square_min_amended.2.1 1280 800 (by norm_num)⟩

/-- Claim C2, counterexample: in Vertical mode with the landscape flag and
`screenWidth = 100, screenHeight = 800`, the first variant returns width
`800 * 9/16 = 450 > 100`, so the preview exceeds the physical screen. -/
theorem fits_screen_counterexample :
    ¬ ((getAspectRatio VideoMode.vertical true 100 800).width ≤ 100 ∧
       (getAspectRatio VideoMode.vertical true 100 800).height ≤ 800) := by
  norm_num [getAspectRatio, VIDEO_MODES]

/-- Claim C2, amended: only the binding dimension is always bounded — in
landscape the height never exceeds `screenHeight` and in portrait the width
never exceeds `screenWidth` — while both dimensions fit the screen in
Horizontal mode with the landscape flag, and in Square mode of the memo
variant. -/
theorem fits_screen_amended :
    (∀ screenWidth screenHeight : ℚ, 0 < screenWidth → 0 < screenHeight →
      (getAspectRatio VideoMode.horizontal true screenWidth screenHeight).width ≤
        screenWidth ∧
      (getAspectRatio VideoMode.horizontal true screenWidth screenHeight).height ≤
        screenHeight) ∧
    (∀ (isLandscape : Bool) (screenWidth screenHeight : ℚ),
      (aspectRatioMemo VideoMode.square isLandscape screenWidth screenHeight).width ≤
        screenWidth ∧
      (aspectRatioMemo VideoMode.square isLandscape screenWidth screenHeight).height ≤
        screenHeight) ∧
    (∀ (mode : VideoMode) (screenWidth screenHeight : ℚ),
      (getAspectRatio mode true screenWidth screenHeight).height ≤ screenHeight) ∧
    (∀ (mode : VideoMode) (screenWidth screenHeight : ℚ),
      (getAspectRatio mode false screenWidth screenHeight).width ≤ screenWidth) := by
  refine ⟨fun w h _ _ => ?_, fun l w h => ?_, fun m w h => ?_, fun m w h => ?_⟩
  · rw [getAspectRatio_horizontal_true]
    split_ifs with hc
    · rw [gt_iff_lt, lt_div_iff₀ (by norm_num : (0 : ℚ) < 16 / 9)] at hc
      exact ⟨le_of_lt hc, le_refl h⟩
    · rw [gt_iff_lt, not_lt] at hc
      exact ⟨le_refl w, hc⟩
  · cases l <;> simp [aspectRatioMemo, VIDEO_MODES]
  · cases m
    · exact le_refl h
    · rw [getAspectRatio_horizontal_true]
      split_ifs with hc
      · exact le_refl h
      · rw [gt_iff_lt, not_lt] at hc
        exact hc
    · exact le_refl h
  · cases m <;> exact le_refl w

/-- Claim C2, witness for the amended statement at concrete inputs. -/
theorem fits_screen_amended_witness :
    (0 : ℚ) < 1600 ∧ (0 : ℚ) < 900 ∧
    ((getAspectRatio VideoMode.horizontal true 1600 900).width ≤ 1600 ∧
     (getAspectRatio VideoMode.horizontal true 1600 900).height ≤ 900) :=
  ⟨by norm_num, by norm_num, fits_screen_amended.1 1600 900 (by norm_num) (by norm_num)⟩

/-- Claim C3: in Horizontal mode with the landscape flag, the computation
returns the height-constrained candidate exactly when the width-constrained
height `screenWidth / (16/9)` strictly exceeds `screenHeight`, and the
width-constrained candidate otherwise; at the boundary case
`screenWidth = 1600, screenHeight = 900` the width-constrained result
`{width 1600, height 900}` is chosen. -/
theorem horizontal_landscape_spec :
    (∀ screenWidth screenHeight : ℚ, 0 < screenWidth → 0 < screenHeight →
      getAspectRatio VideoMode.horizontal true screenWidth screenHeight =
        if screenWidth / (16 / 9) > screenHeight then
          { width := screenHeight * (16 / 9), height := screenHeight }
        else
          { width := screenWidth, height := screenWidth / (16 / 9) }) ∧
    getAspectRatio VideoMode.horizontal true 1600 900 = { width := 1600, height := 900 } := by
  constructor
  · intro w h _ _
    rfl
  · norm_num [getAspectRatio, VIDEO_MODES]

/-- Claim C3, witness at the other concrete case of the spec. -/
theorem horizontal_landscape_spec_witness :
    (0 : ℚ) < 800 ∧ (0 : ℚ) < 400 ∧
    getAspectRatio VideoMode.horizontal true 800 400 =
      (if (800 : ℚ) / (16 / 9) > 400 then
        { width := (400 : ℚ) * (16 / 9), height := 400 }
      else
        { width := (800 : ℚ), height := 800 / (16 / 9) }) :=
  ⟨by norm_num, by norm_num, horizontal_landscape_spec.1 800 400 (by norm_num) (by norm_num)⟩

/-- Claim C4: Vertical mode with the landscape flag fills the height and
derives the width as `screenHeight * 9/16`. -/
theorem vertical_landscape_spec (screenWidth screenHeight : ℚ)
    (_hw : 0 < screenWidth) (_hh : 0 < screenHeight) :
    getAspectRatio VideoMode.vertical true screenWidth screenHeight =
      { width := screenHeight * (9 / 16), height := screenHeight } := rfl

/-- Claim C4, witness at concrete inputs. -/
theorem vertical_landscape_spec_witness :
    (0 : ℚ) < 844 ∧ (0 : ℚ) < 390 ∧
    getAspectRatio VideoMode.vertical true 844 390 =
      { width := (390 : ℚ) * (9 / 16), height := 390 } :=
  ⟨by norm_num, by norm_num, vertical_landscape_spec 844 390 (by norm_num) (by norm_num)⟩

/-- Claim C5: with the landscape flag unset, both Vertical and Horizontal
modes fill the width and derive the height as `screenWidth` times the
mode's portrait ratio (16/9 for Vertical, 9/16 for Horizontal). -/
theorem portrait_spec (screenWidth screenHeight : ℚ)
    (_hw : 0 < screenWidth) (_hh : 0 < screenHeight) :
    getAspectRatio VideoMode.vertical false screenWidth screenHeight =
      { width := screenWidth, height := screenWidth * (16 / 9) } ∧
    getAspectRatio VideoMode.horizontal false screenWidth screenHeight =
      { width := screenWidth, height := screenWidth * (9 / 16) } := ⟨rfl, rfl⟩

/-- Claim C5, witness at concrete inputs. -/
theorem portrait_spec_witness :
    (0 : ℚ) < 390 ∧ (0 : ℚ) < 844 ∧
    (getAspectRatio VideoMode.vertical false 390 844 =
      { width := (390 : ℚ), height := 390 * (16 / 9) } ∧
     getAspectRatio VideoMode.horizontal false 390 844 =
      { width := (390 : ℚ), height := 390 * (9 / 16) }) :=
  ⟨by norm_num, by norm_num, portrait_spec 390 844 (by norm_num) (by norm_num)⟩

/-- Claim C6: the viewport computation reads only the selected mode, the
landscape flag and the window extents from the component state; any two
states agreeing on those four inputs yield identical results, regardless of
the recording flag, the error message or the camera key. -/
theorem aspectRatio_deterministic (s₁ s₂ : ComponentState)
    (hm : s₁.selectedMode = s₂.selectedMode) (hl : s₁.isLandscape = s₂.isLandscape)
    (hw : s₁.window = s₂.window) :
    getAspectRatioOf s₁ = getAspectRatioOf s₂ := by
  simp [getAspectRatioOf, hm, hl, hw]

/-- Claim C6, witness: two states differing in recording flag, error and
camera key but agreeing on the four inputs give the same result. -/
theorem aspectRatio_deterministic_witness :
    getAspectRatioOf
      { isRecording := true, selectedMode := VideoMode.vertical, isLandscape := false,
        errorMsg := some "Camera error", cameraKey := 5,
        window := { width := 390, height := 844 } } =
    getAspectRatioOf
      { isRecording := false, selectedMode := VideoMode.vertical, isLandscape := false,
        errorMsg := none, cameraKey := 0,
        window := { width := 390, height := 844 } } :=
  aspectRatio_deterministic _ _ rfl rfl rfl

/-- Claim C7: every branch of the computation yields a result, and for
positive screen extents both components of the result are positive. -/
theorem aspectRatio_total_pos (mode : VideoMode) (isLandscape : Bool)
    (screenWidth screenHeight : ℚ) (hw : 0 < screenWidth) (hh : 0 < screenHeight) :
    0 < (getAspectRatio mode isLandscape screenWidth screenHeight).width ∧
    0 < (getAspectRatio mode isLandscape screenWidth screenHeight).height := by
  have h916 : (0 : ℚ) < 9 / 16 := by norm_num
  have h169 : (0 : ℚ) < 16 / 9 := by norm_num
  cases mode <;> cases isLandscape
  · exact ⟨hw, mul_pos hw h169⟩
  · exact ⟨mul_pos hh h916, hh⟩
  · exact ⟨hw, mul_pos hw h916⟩
  · rw [getAspectRatio_horizontal_true]
    split_ifs with hc
    · exact ⟨mul_pos hh h169, hh⟩
    · exact ⟨hw, div_pos hw h169⟩
  · exact ⟨hw, hw⟩
  · exact ⟨hh, hh⟩

/-- Claim C7, witness at concrete inputs. -/
theorem aspectRatio_total_pos_witness :
    (0 : ℚ) < 390 ∧ (0 : ℚ) < 844 ∧
    (0 < (getAspectRatio VideoMode.horizontal true 390 844).width ∧
     0 < (getAspectRatio VideoMode.horizontal true 390 844).height) :=
  ⟨by norm_num, by norm_num,
    aspectRatio_total_pos VideoMode.horizontal true 390 844 (by norm_num) (by norm_num)⟩

/-- Claim C8: for positive extents, the ratio `width / height` of the
result equals the mode's target aspect ratio exactly: 9/16 for Vertical,
16/9 for Horizontal, 1 for Square. -/
theorem aspectRatio_target_ratio (mode : VideoMode) (isLandscape : Bool)
    (screenWidth screenHeight : ℚ) (hw : 0 < screenWidth) (hh : 0 < screenHeight) :
    (getAspectRatio mode isLandscape screenWidth screenHeight).width /
      (getAspectRatio mode isLandscape screenWidth screenHeight).height =
      (match mode with
        | VideoMode.vertical => (9 : ℚ) / 16
        | VideoMode.horizontal => (16 : ℚ) / 9
        | VideoMode.square => 1) := by
  have hw' : screenWidth ≠ 0 := ne_of_gt hw
  have hh' : screenHeight ≠ 0 := ne_of_gt hh
  cases mode <;> cases isLandscape
  · show screenWidth / (screenWidth * (16 / 9)) = 9 / 16
    rw [div_mul_eq_div_div, div_self hw']
    norm_num
  · show screenHeight * (9 / 16) / screenHeight = 9 / 16
    rw [mul_comm, mul_div_assoc, div_self hh', mul_one]
  · show screenWidth / (screenWidth * (9 / 16)) = 16 / 9
    rw [div_mul_eq_div_div, div_self hw']
    norm_num
  · rw [getAspectRatio_horizontal_true]
    split_ifs with hc
    · show screenHeight * (16 / 9) / screenHeight = 16 / 9
      rw [mul_comm, mul_div_assoc, div_self hh', mul_one]
    · show screenWidth / (screenWidth / (16 / 9)) = 16 / 9
      rw [div_div_eq_mul_div, mul_comm, mul_div_assoc, div_self hw', mul_one]
  · exact div_self hw'
  · exact div_self hh'

/-- Claim C8, witness at concrete inputs. -/
theorem aspectRatio_target_ratio_witness :
    (0 : ℚ) < 390 ∧ (0 : ℚ) < 844 ∧
    (getAspectRatio VideoMode.vertical false 390 844).width /
      (getAspectRatio VideoMode.vertical false 390 844).height =
      (match VideoMode.vertical with
        | VideoMode.vertical => (9 : ℚ) / 16
        | VideoMode.horizontal => (16 : ℚ) / 9
        | VideoMode.square => 1) :=
  ⟨by norm_num, by norm_num,
    aspectRatio_target_ratio VideoMode.vertical false 390 844 (by norm_num) (by norm_num)⟩

/-- Claim C9: the `getAspectRatio` callback and the `aspectRatio` memo
compute identical results in Vertical and Horizontal modes, for every
orientation flag and positive screen extents. -/
theorem variants_agree (mode : VideoMode)
    (hmode : mode = VideoMode.vertical ∨ mode = VideoMode.horizontal)
    (isLandscape : Bool) (screenWidth screenHeight : ℚ)
    (_hw : 0 < screenWidth) (_hh : 0 < screenHeight) :
    getAspectRatio mode isLandscape screenWidth screenHeight =
      aspectRatioMemo mode isLandscape screenWidth screenHeight := by
  rcases hmode with h | h <;> subst h <;> cases isLandscape <;> rfl

/-- Claim C9, witness at concrete inputs. -/
theorem variants_agree_witness :
    (VideoMode.horizontal = VideoMode.vertical ∨
      VideoMode.horizontal = VideoMode.horizontal) ∧
    (0 : ℚ) < 800 ∧ (0 : ℚ) < 400 ∧
    getAspectRatio VideoMode.horizontal true 800 400 =
      aspectRatioMemo VideoMode.horizontal true 800 400 :=
  ⟨Or.inr rfl, by norm_num, by norm_num,
    variants_agree VideoMode.horizontal (Or.inr rfl) true 800 400 (by norm_num) (by norm_num)⟩

/-- Claim C10: when the recording flag is clear, `stopRecording` leaves the
state unchanged and issues no command to the camera, regardless of camera
presence or whether a stop call would succeed. -/
theorem stopRecording_noop_when_not_recording (cameraPresent stopSucceeds : Bool)
    (errText : String) (s : RecState) (h : s.isRecording = false) :
    stopRecording cameraPresent stopSucceeds errText s = (s, []) := by
  simp [stopRecording, h]

/-- Claim C10, witness at a concrete state with the flag clear. -/
theorem stopRecording_noop_witness :
    stopRecording true true "err" { isRecording := false, errorMsg := none } =
      ({ isRecording := false, errorMsg := none }, []) :=
  stopRecording_noop_when_not_recording true true "err" _ rfl
